import Mathlib

/-!
Shallow embedding of the bark push-notification client library
(src/message.rs, src/client.rs, src/error.rs) and proofs of the
specified properties of building, serializing and sending messages.

The wire payload is modelled as an association list from key strings to
JSON values; a HashSet of strings becomes a Finset String; the HTTP
transport boundary is modelled by returning the request that would be
posted (URL plus serialized payload), and the in-place mutation of the
message performed by Client::send is modelled by explicit state passing
(send returns the client state, the updated message, and the outcome).
-/

namespace Bark

/-- Errors of src/error.rs. RequestErr stands for the transport-level
RequestError variant, which carries an opaque HTTP failure. -/
inductive Error where
  | VolumeOutOfRange (current : Nat) (max : Nat)
  | MissingDeviceKey
  | RequestErr
deriving DecidableEq, Repr

/-- JSON values appearing in the wire payload. A serialized HashSet of
device keys is an array whose order is unspecified, modelled as a
Finset. The null value models serde serialize_none. -/
inductive JsonVal where
  | null
  | str (s : String)
  | num (n : Nat)
  | keySet (ks : Finset String)
deriving DecidableEq

/-- Tuple struct Flag(pub bool) of src/message.rs. -/
structure Flag where
  val : Bool
deriving DecidableEq, Repr

def Flag.is_false (f : Flag) : Bool :=
  !f.val

def Flag.ofBool (b : Bool) : Flag :=
  Flag.mk b

/-- Serialize for Flag: true serializes as the integer 1, false as
serialize_none. -/
def Flag.serialize (f : Flag) : Option JsonVal :=
  if f.val then some (JsonVal.num 1) else none

inductive BodyKind where
  | Plaintext
  | Markdown
deriving DecidableEq, Repr

structure Body where
  kind : BodyKind
  content : String
deriving DecidableEq, Repr

/-- Serialize for Body: a map with exactly one entry, keyed by the
variant of the kind. -/
def Body.serialize (b : Body) : List (String × JsonVal) :=
  match b.kind with
  | BodyKind.Markdown => [(("markdown"), JsonVal.str b.content)]
  | BodyKind.Plaintext => [(("body"), JsonVal.str b.content)]

inductive Level where
  | Critical
  | Active
  | TimeSensitive
  | Passive
deriving DecidableEq, Repr

/-- The serde rename_all = camelCase token of each Level member. -/
def Level.serialize (l : Level) : String :=
  match l with
  | Level.Critical => "critical"
  | Level.Active => "active"
  | Level.TimeSensitive => "timeSensitive"
  | Level.Passive => "passive"

/-- The Message struct of src/message.rs. -/
structure Message where
  title : Option String
  subtitle : Option String
  body : Option Body
  device_keys : Finset String
  level : Option Level
  volume : Option Nat
  badge : Option Nat
  call : Flag
  auto_copy : Flag
  copy : Option String
  sound : Option String
  icon : Option String
  image : Option String
  group : Option String
  ciphertext : Option String
  is_archive : Flag
  url : Option String
  action : Option String
  id : Option String
  delete : Flag
deriving DecidableEq

/-- One optional map entry: absent when the value is none
(skip_serializing_if Option.is_none). -/
def optEntry (k : String) (v : Option JsonVal) : List (String × JsonVal) :=
  match v with
  | none => []
  | some j => [(k, j)]

/-- One flag entry: skipped entirely when the flag is false
(skip_serializing_if Flag.is_false), otherwise the Flag serialization. -/
def flagEntry (k : String) (f : Flag) : List (String × JsonVal) :=
  if Flag.is_false f then []
  else [(k, match Flag.serialize f with
            | some j => j
            | none => JsonVal.null)]

/-- The device-key entry: skipped when the set is empty
(skip_serializing_if HashSet.is_empty). -/
def deviceKeysEntry (ks : Finset String) : List (String × JsonVal) :=
  if ks = ∅ then [] else [(("device_keys"), JsonVal.keySet ks)]

/-- The flattened body entries: absent when no body was set, otherwise
the single entry of the Body serialization. -/
def bodyEntries (b : Option Body) : List (String × JsonVal) :=
  match b with
  | none => []
  | some b => Body.serialize b

/-- The derived Serialize of Message: entries in field order, each
skipped per its skip_serializing_if rule; the body map is flattened
into the outer map. -/
def serializeMessage (m : Message) : List (String × JsonVal) :=
  optEntry ("title") (m.title.map JsonVal.str) ++
  optEntry ("subtitle") (m.subtitle.map JsonVal.str) ++
  bodyEntries m.body ++
  deviceKeysEntry m.device_keys ++
  optEntry ("level") (m.level.map (fun l => JsonVal.str (Level.serialize l))) ++
  optEntry ("volume") (m.volume.map JsonVal.num) ++
  optEntry ("badge") (m.badge.map JsonVal.num) ++
  flagEntry ("call") m.call ++
  flagEntry ("auto_copy") m.auto_copy ++
  optEntry ("copy") (m.copy.map JsonVal.str) ++
  optEntry ("sound") (m.sound.map JsonVal.str) ++
  optEntry ("icon") (m.icon.map JsonVal.str) ++
  optEntry ("image") (m.image.map JsonVal.str) ++
  optEntry ("group") (m.group.map JsonVal.str) ++
  optEntry ("ciphertext") (m.ciphertext.map JsonVal.str) ++
  flagEntry ("is_archive") m.is_archive ++
  optEntry ("url") (m.url.map JsonVal.str) ++
  optEntry ("action") (m.action.map JsonVal.str) ++
  optEntry ("id") (m.id.map JsonVal.str) ++
  flagEntry ("delete") m.delete

/-- The MessageBuilder struct of src/message.rs; Default gives all
fields unset, the key set empty, the flags false, and the body kind
Plaintext. -/
structure MessageBuilder where
  title : Option String := none
  subtitle : Option String := none
  body : Option String := none
  body_kind : BodyKind := BodyKind.Plaintext
  device_keys : Finset String := ∅
  level : Option Level := none
  volume : Option Nat := none
  badge : Option Nat := none
  call : Bool := false
  auto_copy : Bool := false
  copy : Option String := none
  sound : Option String := none
  icon : Option String := none
  image : Option String := none
  group : Option String := none
  ciphertext : Option String := none
  is_archive : Bool := false
  url : Option String := none
  action : Option String := none
  id : Option String := none
  delete : Bool := false
deriving DecidableEq

/-- MessageBuilder.default. -/
def MessageBuilder.empty : MessageBuilder := {}

def MessageBuilder.MAX_VOLUME : Nat := 10

def MessageBuilder.set_title (b : MessageBuilder) (v : String) : MessageBuilder :=
  { b with title := some v }

def MessageBuilder.set_subtitle (b : MessageBuilder) (v : String) : MessageBuilder :=
  { b with subtitle := some v }

def MessageBuilder.set_body (b : MessageBuilder) (v : String) : MessageBuilder :=
  { b with body := some v }

def MessageBuilder.set_body_kind (b : MessageBuilder) (v : BodyKind) : MessageBuilder :=
  { b with body_kind := v }

def MessageBuilder.set_device_key (b : MessageBuilder) (v : String) : MessageBuilder :=
  { b with device_keys := insert v b.device_keys }

def MessageBuilder.set_device_keys (b : MessageBuilder) (vs : List String) : MessageBuilder :=
  { b with device_keys := vs.foldl (fun s k => insert k s) b.device_keys }

def MessageBuilder.set_level (b : MessageBuilder) (v : Level) : MessageBuilder :=
  { b with level := some v }

def MessageBuilder.set_volume (b : MessageBuilder) (v : Nat) : MessageBuilder :=
  { b with volume := some v }

def MessageBuilder.set_badge (b : MessageBuilder) (v : Nat) : MessageBuilder :=
  { b with badge := some v }

def MessageBuilder.set_call (b : MessageBuilder) (v : Bool) : MessageBuilder :=
  { b with call := v }

def MessageBuilder.set_auto_copy (b : MessageBuilder) (v : Bool) : MessageBuilder :=
  { b with auto_copy := v }

def MessageBuilder.set_copy (b : MessageBuilder) (v : String) : MessageBuilder :=
  { b with copy := some v }

def MessageBuilder.set_sound (b : MessageBuilder) (v : String) : MessageBuilder :=
  { b with sound := some v }

def MessageBuilder.set_icon (b : MessageBuilder) (v : String) : MessageBuilder :=
  { b with icon := some v }

def MessageBuilder.set_image (b : MessageBuilder) (v : String) : MessageBuilder :=
  { b with image := some v }

def MessageBuilder.set_group (b : MessageBuilder) (v : String) : MessageBuilder :=
  { b with group := some v }

def MessageBuilder.set_ciphertext (b : MessageBuilder) (v : String) : MessageBuilder :=
  { b with ciphertext := some v }

def MessageBuilder.set_is_archive (b : MessageBuilder) (v : Bool) : MessageBuilder :=
  { b with is_archive := v }

def MessageBuilder.set_url (b : MessageBuilder) (v : String) : MessageBuilder :=
  { b with url := some v }

def MessageBuilder.set_action (b : MessageBuilder) (v : String) : MessageBuilder :=
  { b with action := some v }

def MessageBuilder.set_id (b : MessageBuilder) (v : String) : MessageBuilder :=
  { b with id := some v }

def MessageBuilder.set_delete (b : MessageBuilder) (v : Bool) : MessageBuilder :=
  { b with delete := v }

/-- The Message assembled by the Ok branch of MessageBuilder.build:
each field is moved over, the body text is wrapped with the selected
kind, and the plain booleans become Flags. -/
def MessageBuilder.toMessage (b : MessageBuilder) : Message :=
  { title := b.title
    subtitle := b.subtitle
    body := b.body.map (fun content => Body.mk b.body_kind content)
    device_keys := b.device_keys
    level := b.level
    volume := b.volume
    badge := b.badge
    call := Flag.ofBool b.call
    auto_copy := Flag.ofBool b.auto_copy
    copy := b.copy
    sound := b.sound
    icon := b.icon
    image := b.image
    group := b.group
    ciphertext := b.ciphertext
    is_archive := Flag.ofBool b.is_archive
    url := b.url
    action := b.action
    id := b.id
    delete := Flag.ofBool b.delete }

/-- MessageBuilder.build of src/message.rs: reject a set volume above
MAX_VOLUME, otherwise assemble the Message. -/
def MessageBuilder.build (b : MessageBuilder) : Except Error Message :=
  match b.volume.filter (fun v => decide (MessageBuilder.MAX_VOLUME < v)) with
  | some v => Except.error (Error.VolumeOutOfRange v MessageBuilder.MAX_VOLUME)
  | none => Except.ok b.toMessage

/-- The Client struct of src/client.rs (the reqwest handle carries no
state relevant here). -/
structure Client where
  base_url : String
  default_device_keys : Finset String
deriving DecidableEq

/-- Client.new: pop the final character when the base URL ends with a
slash, and start with no default device keys. -/
def Client.new (base_url : String) : Client :=
  { base_url :=
      if base_url.data.getLast? = some '/'
      then String.mk base_url.data.dropLast
      else base_url
    default_device_keys := ∅ }

def Client.with_device_key (c : Client) (k : String) : Client :=
  { c with default_device_keys := insert k c.default_device_keys }

def Client.with_device_keys (c : Client) (ks : List String) : Client :=
  { c with default_device_keys := ks.foldl (fun s k => insert k s) c.default_device_keys }

/-- The HTTP request Client.send hands to the transport: the POST URL
and the serialized message payload. -/
structure SendRequest where
  url : String
  payload : List (String × JsonVal)
deriving DecidableEq

/-- Client.send of src/client.rs, with the in-place mutation of the
message made explicit: extend an empty device-key set with the default
keys, fail with MissingDeviceKey when the set is still empty, otherwise
POST the serialized message to base_url/push. Returns the client state,
the message as left by the call, and the outcome. -/
def Client.send (c : Client) (m : Message) : Client × Message × Except Error SendRequest :=
  let m' :=
    if m.device_keys = ∅
    then { m with device_keys := m.device_keys ∪ c.default_device_keys }
    else m
  if m'.device_keys = ∅
  then (c, m', Except.error Error.MissingDeviceKey)
  else (c, m', Except.ok { url := c.base_url ++ "/push", payload := serializeMessage m' })

/-- ClientMessageBuilder.send of src/client.rs: build the message,
propagating a build error without any transport call, then delegate to
Client.send. -/
def ClientMessageBuilder.send (c : Client) (b : MessageBuilder) :
    Client × Except Error SendRequest :=
  match b.build with
  | Except.error e => (c, Except.error e)
  | Except.ok m =>
    let r := c.send m
    (r.1, r.2.2)


/-! Helper lemmas about payload lookup. -/

theorem lookup_append (k : String) (l₁ l₂ : List (String × JsonVal)) :
    (l₁ ++ l₂).lookup k = ((l₁.lookup k).orElse fun _ => l₂.lookup k) := by
  induction l₁ with
  | nil => simp [List.lookup]
  | cons hd tl ih =>
    obtain ⟨k', v⟩ := hd
    simp only [List.cons_append, List.lookup]
    cases h : k == k' <;> simp [h, ih]

theorem lookup_eq_none_iff (k : String) (l : List (String × JsonVal)) :
    l.lookup k = none ↔ k ∉ l.map Prod.fst := by
  induction l with
  | nil => simp [List.lookup]
  | cons hd tl ih =>
    obtain ⟨k', v⟩ := hd
    cases h : k == k' with
    | true =>
      have : k = k' := eq_of_beq h
      simp [List.lookup, h, this]
    | false =>
      have : ¬ k = k' := by
        intro he
        simp [he] at h
      simp [List.lookup, h, ih, this]

theorem optEntry_lookup_self (k : String) (v : Option JsonVal) :
    (optEntry k v).lookup k = v := by
  cases v <;> simp [optEntry, List.lookup]

theorem optEntry_lookup_ne (k k' : String) (v : Option JsonVal)
    (h : (k' == k) = false) : (optEntry k v).lookup k' = none := by
  cases v <;> simp [optEntry, List.lookup, h]

theorem flagEntry_lookup_self (k : String) (f : Flag) :
    (flagEntry k f).lookup k = if f.val then some (JsonVal.num 1) else none := by
  obtain ⟨b⟩ := f
  cases b <;> simp [flagEntry, Flag.is_false, Flag.serialize, List.lookup]

theorem flagEntry_lookup_ne (k k' : String) (f : Flag)
    (h : (k' == k) = false) : (flagEntry k f).lookup k' = none := by
  obtain ⟨b⟩ := f
  cases b <;> simp [flagEntry, Flag.is_false, Flag.serialize, List.lookup, h]

theorem deviceKeysEntry_lookup_self (ks : Finset String) :
    (deviceKeysEntry ks).lookup ("device_keys") =
      if ks = ∅ then none else some (JsonVal.keySet ks) := by
  by_cases he : ks = ∅ <;> simp [deviceKeysEntry, he, List.lookup]

theorem deviceKeysEntry_lookup_ne (ks : Finset String) (k' : String)
    (h : (k' == "device_keys") = false) : (deviceKeysEntry ks).lookup k' = none := by
  by_cases he : ks = ∅ <;> simp [deviceKeysEntry, he, List.lookup, h]

theorem bodyEntries_lookup_ne (b : Option Body) (k' : String)
    (h1 : (k' == "body") = false) (h2 : (k' == "markdown") = false) :
    (bodyEntries b).lookup k' = none := by
  cases b with
  | none => simp [bodyEntries, List.lookup]
  | some b =>
    obtain ⟨kd, c⟩ := b
    cases kd <;> simp [bodyEntries, Body.serialize, List.lookup, h1, h2]

theorem bodyEntries_lookup_body (b : Option Body) :
    (bodyEntries b).lookup ("body") =
      match b with
      | some (Body.mk BodyKind.Plaintext t) => some (JsonVal.str t)
      | _ => none := by
  cases b with
  | none => simp [bodyEntries, List.lookup]
  | some b =>
    obtain ⟨kd, c⟩ := b
    cases kd <;> simp [bodyEntries, Body.serialize, List.lookup]

theorem bodyEntries_lookup_markdown (b : Option Body) :
    (bodyEntries b).lookup ("markdown") =
      match b with
      | some (Body.mk BodyKind.Markdown t) => some (JsonVal.str t)
      | _ => none := by
  cases b with
  | none => simp [bodyEntries, List.lookup]
  | some b =>
    obtain ⟨kd, c⟩ := b
    cases kd <;> simp [bodyEntries, Body.serialize, List.lookup]

/-! Per-key lookup lemmas for the serialized message. -/

theorem serializeMessage_lookup_volume (m : Message) :
    (serializeMessage m).lookup ("volume") = m.volume.map JsonVal.num := by
  simp [serializeMessage, lookup_append, optEntry_lookup_self, optEntry_lookup_ne,
    flagEntry_lookup_ne, deviceKeysEntry_lookup_ne, bodyEntries_lookup_ne]

theorem serializeMessage_lookup_level (m : Message) :
    (serializeMessage m).lookup ("level") =
      m.level.map (fun l => JsonVal.str (Level.serialize l)) := by
  simp [serializeMessage, lookup_append, optEntry_lookup_self, optEntry_lookup_ne,
    flagEntry_lookup_ne, deviceKeysEntry_lookup_ne, bodyEntries_lookup_ne]

theorem serializeMessage_lookup_device_keys (m : Message) :
    (serializeMessage m).lookup ("device_keys") =
      if m.device_keys = ∅ then none else some (JsonVal.keySet m.device_keys) := by
  by_cases he : m.device_keys = ∅ <;>
    simp [serializeMessage, lookup_append, optEntry_lookup_ne, flagEntry_lookup_ne,
      deviceKeysEntry_lookup_self, bodyEntries_lookup_ne, he]

theorem serializeMessage_lookup_body (m : Message) :
    (serializeMessage m).lookup ("body") =
      match m.body with
      | some (Body.mk BodyKind.Plaintext t) => some (JsonVal.str t)
      | _ => none := by
  rcases hb : m.body with _ | ⟨kd, c⟩ <;> [skip; cases kd] <;>
    simp [serializeMessage, lookup_append, optEntry_lookup_ne, flagEntry_lookup_ne,
      deviceKeysEntry_lookup_ne, bodyEntries_lookup_body, hb]

theorem serializeMessage_lookup_markdown (m : Message) :
    (serializeMessage m).lookup ("markdown") =
      match m.body with
      | some (Body.mk BodyKind.Markdown t) => some (JsonVal.str t)
      | _ => none := by
  rcases hb : m.body with _ | ⟨kd, c⟩ <;> [skip; cases kd] <;>
    simp [serializeMessage, lookup_append, optEntry_lookup_ne, flagEntry_lookup_ne,
      deviceKeysEntry_lookup_ne, bodyEntries_lookup_markdown, hb]

theorem serializeMessage_lookup_kind (m : Message) :
    (serializeMessage m).lookup ("kind") = none := by
  simp [serializeMessage, lookup_append, optEntry_lookup_ne, flagEntry_lookup_ne,
    deviceKeysEntry_lookup_ne, bodyEntries_lookup_ne]

theorem serializeMessage_lookup_call (m : Message) :
    (serializeMessage m).lookup ("call") =
      if m.call.val then some (JsonVal.num 1) else none := by
  cases hc : m.call.val <;>
    simp [serializeMessage, lookup_append, optEntry_lookup_ne, flagEntry_lookup_ne,
      flagEntry_lookup_self, deviceKeysEntry_lookup_ne, bodyEntries_lookup_ne, hc]

theorem serializeMessage_lookup_auto_copy (m : Message) :
    (serializeMessage m).lookup ("auto_copy") =
      if m.auto_copy.val then some (JsonVal.num 1) else none := by
  cases hc : m.auto_copy.val <;>
    simp [serializeMessage, lookup_append, optEntry_lookup_ne, flagEntry_lookup_ne,
      flagEntry_lookup_self, deviceKeysEntry_lookup_ne, bodyEntries_lookup_ne, hc]

theorem serializeMessage_lookup_is_archive (m : Message) :
    (serializeMessage m).lookup ("is_archive") =
      if m.is_archive.val then some (JsonVal.num 1) else none := by
  cases hc : m.is_archive.val <;>
    simp [serializeMessage, lookup_append, optEntry_lookup_ne, flagEntry_lookup_ne,
      flagEntry_lookup_self, deviceKeysEntry_lookup_ne, bodyEntries_lookup_ne, hc]

theorem serializeMessage_lookup_delete (m : Message) :
    (serializeMessage m).lookup ("delete") =
      if m.delete.val then some (JsonVal.num 1) else none := by
  cases hc : m.delete.val <;>
    simp [serializeMessage, lookup_append, optEntry_lookup_ne, flagEntry_lookup_ne,
      flagEntry_lookup_self, deviceKeysEntry_lookup_ne, bodyEntries_lookup_ne, hc]

/-! Helper lemmas about MessageBuilder.build. -/

theorem build_ok_of_filter_none (b : MessageBuilder)
    (h : b.volume.filter (fun v => decide (MessageBuilder.MAX_VOLUME < v)) = none) :
    b.build = Except.ok b.toMessage := by
  unfold MessageBuilder.build
  rw [h]

theorem build_err_of_filter_some (b : MessageBuilder) (v : Nat)
    (h : b.volume.filter (fun v => decide (MessageBuilder.MAX_VOLUME < v)) = some v) :
    b.build = Except.error (Error.VolumeOutOfRange v MessageBuilder.MAX_VOLUME) := by
  unfold MessageBuilder.build
  rw [h]

theorem filter_volume_none_of_le (b : MessageBuilder) (v : Nat)
    (hv : b.volume = some v) (hle : v ≤ 10) :
    b.volume.filter (fun v => decide (MessageBuilder.MAX_VOLUME < v)) = none := by
  rw [hv]
  simp [Option.filter, MessageBuilder.MAX_VOLUME]
  omega

theorem filter_volume_some_of_gt (b : MessageBuilder) (v : Nat)
    (hv : b.volume = some v) (hgt : 10 < v) :
    b.volume.filter (fun v => decide (MessageBuilder.MAX_VOLUME < v)) = some v := by
  rw [hv]
  simp [Option.filter, MessageBuilder.MAX_VOLUME]
  omega

theorem build_ok_elim (b : MessageBuilder) (m : Message)
    (h : b.build = Except.ok m) : m = b.toMessage := by
  unfold MessageBuilder.build at h
  split at h
  · exact absurd h (by simp)
  · exact (Except.ok.inj h).symm

/-- Claim C1: a builder whose volume is set to v builds successfully
with a volume wire entry equal to v when v is at most 10, fails with
VolumeOutOfRange carrying v and the maximum 10 when v exceeds 10 (and
then the fluent send makes no transport call), and a builder with no
volume set builds successfully with no volume key in the payload. -/
theorem claim1_volume_validation (b : MessageBuilder) :
    (∀ v, b.volume = some v →
      (v ≤ 10 →
        ∃ m, b.build = Except.ok m ∧
          (serializeMessage m).lookup ("volume") = some (JsonVal.num v)) ∧
      (10 < v →
        b.build = Except.error (Error.VolumeOutOfRange v 10) ∧
        ∀ c : Client, ClientMessageBuilder.send c b =
          (c, Except.error (Error.VolumeOutOfRange v 10)))) ∧
    (b.volume = none →
      ∃ m, b.build = Except.ok m ∧
        ("volume") ∉ (serializeMessage m).map Prod.fst) := by
  refine ⟨fun v hv => ⟨fun hle => ?_, fun hgt => ?_⟩, fun hv => ?_⟩
  · refine ⟨b.toMessage,
      build_ok_of_filter_none b (filter_volume_none_of_le b v hv hle), ?_⟩
    rw [serializeMessage_lookup_volume]
    simp [MessageBuilder.toMessage, hv]
  · have hb := build_err_of_filter_some b v (filter_volume_some_of_gt b v hv hgt)
    refine ⟨hb, fun c => ?_⟩
    unfold ClientMessageBuilder.send
    rw [hb]
    rfl
  · have hf : b.volume.filter (fun v => decide (MessageBuilder.MAX_VOLUME < v)) = none := by
      rw [hv]
      rfl
    refine ⟨b.toMessage, build_ok_of_filter_none b hf, ?_⟩
    rw [← lookup_eq_none_iff, serializeMessage_lookup_volume]
    simp [MessageBuilder.toMessage, hv]

theorem claim1_volume_validation_witness :
    (∃ m, (MessageBuilder.empty.set_volume 7).build = Except.ok m ∧
      (serializeMessage m).lookup ("volume") = some (JsonVal.num 7)) ∧
    ((MessageBuilder.empty.set_volume 11).build =
        Except.error (Error.VolumeOutOfRange 11 10) ∧
      ∀ c : Client, ClientMessageBuilder.send c (MessageBuilder.empty.set_volume 11) =
        (c, Except.error (Error.VolumeOutOfRange 11 10))) ∧
    (∃ m, MessageBuilder.empty.build = Except.ok m ∧
      ("volume") ∉ (serializeMessage m).map Prod.fst) :=
  ⟨((claim1_volume_validation (MessageBuilder.empty.set_volume 7)).1 7 rfl).1 (by decide),
   ((claim1_volume_validation (MessageBuilder.empty.set_volume 11)).1 11 rfl).2 (by decide),
   (claim1_volume_validation MessageBuilder.empty).2 rfl⟩

/-- Claim C6: the untouched builder builds successfully and the
resulting Message serializes to the empty wire object. -/
theorem claim6_empty_builder :
    ∃ m, MessageBuilder.empty.build = Except.ok m ∧ serializeMessage m = [] :=
  ⟨MessageBuilder.empty.toMessage, rfl, rfl⟩

/-- Claim C2: with an empty device-key set on the message and no
configured default keys, send returns MissingDeviceKey, leaves the
message as it was, and makes no transport call. -/
theorem claim2_missing_device_key (c : Client) (m : Message)
    (h1 : m.device_keys = ∅) (h2 : c.default_device_keys = ∅) :
    c.send m = (c, m, Except.error Error.MissingDeviceKey) := by
  have hm : ({ m with device_keys := m.device_keys ∪ c.default_device_keys } : Message) = m := by
    rw [h2, Finset.union_empty]
  unfold Client.send
  rw [if_pos h1, hm, if_pos h1]

theorem claim2_missing_device_key_witness :
    (Client.new ("https://api.day.app")).send MessageBuilder.empty.toMessage =
      (Client.new ("https://api.day.app"), MessageBuilder.empty.toMessage,
        Except.error Error.MissingDeviceKey) :=
  claim2_missing_device_key (Client.new ("https://api.day.app"))
    MessageBuilder.empty.toMessage rfl rfl

/-! Helper lemmas characterizing Client.send in each case. -/

theorem send_of_nonempty (c : Client) (m : Message) (h : ¬ m.device_keys = ∅) :
    c.send m =
      (c, m, Except.ok { url := c.base_url ++ "/push", payload := serializeMessage m }) := by
  unfold Client.send
  simp [h]

theorem send_of_empty_defaults (c : Client) (m : Message) (h : m.device_keys = ∅)
    (hd : ¬ c.default_device_keys = ∅) :
    c.send m =
      (c, { m with device_keys := c.default_device_keys },
        Except.ok
          { url := c.base_url ++ "/push",
            payload := serializeMessage { m with device_keys := c.default_device_keys } }) := by
  unfold Client.send
  simp [h, hd]

theorem send_of_all_empty (c : Client) (m : Message) (h : m.device_keys = ∅)
    (hd : c.default_device_keys = ∅) :
    c.send m = (c, m, Except.error Error.MissingDeviceKey) := by
  have hm : ({ m with device_keys := m.device_keys ∪ c.default_device_keys } : Message) = m := by
    rw [hd, Finset.union_empty]
  unfold Client.send
  rw [if_pos h, hm, if_pos h]

/-- Claim C3: send copies the default keys into the message exactly
when its key set is empty; explicit keys suppress the defaults and the
transport then receives only the explicit keys; the defaults of the
client are untouched by the send. -/
theorem claim3_default_key_fill (c : Client) (m : Message) :
    ((c.send m).1 = c) ∧
    (m.device_keys = ∅ → ((c.send m).2.1).device_keys = c.default_device_keys) ∧
    (¬ m.device_keys = ∅ →
      (c.send m).2.1 = m ∧
      (c.send m).2.2 =
        Except.ok { url := c.base_url ++ "/push", payload := serializeMessage m } ∧
      (serializeMessage m).lookup ("device_keys") = some (JsonVal.keySet m.device_keys)) ∧
    (m.device_keys = ∅ → ¬ c.default_device_keys = ∅ →
      ∀ r, (c.send m).2.2 = Except.ok r →
        r.payload.lookup ("device_keys") = some (JsonVal.keySet c.default_device_keys)) := by
  by_cases h : m.device_keys = ∅
  · by_cases hd : c.default_device_keys = ∅
    · rw [send_of_all_empty c m h hd]
      refine ⟨rfl, fun _ => ?_, fun hne => absurd h hne, fun _ hdne => absurd hd hdne⟩
      rw [h, hd]
    · rw [send_of_empty_defaults c m h hd]
      refine ⟨rfl, fun _ => rfl, fun hne => absurd h hne, fun _ _ r hr => ?_⟩
      obtain rfl :
          r = { url := c.base_url ++ "/push",
                payload := serializeMessage { m with device_keys := c.default_device_keys } } :=
        Except.ok.inj hr.symm
      rw [serializeMessage_lookup_device_keys]
      simp [hd]
  · rw [send_of_nonempty c m h]
    refine ⟨rfl, fun he => absurd he h, fun _ => ⟨rfl, rfl, ?_⟩, fun he => absurd he h⟩
    rw [serializeMessage_lookup_device_keys]
    simp [h]

theorem claim3_default_key_fill_witness :
    (((((Client.new ("u")).with_device_key ("A")).with_device_key ("B")).send
        (MessageBuilder.empty.set_device_key ("C")).toMessage).2.1 =
      (MessageBuilder.empty.set_device_key ("C")).toMessage) ∧
    (serializeMessage (MessageBuilder.empty.set_device_key ("C")).toMessage).lookup
        ("device_keys") =
      some (JsonVal.keySet
        ((MessageBuilder.empty.set_device_key ("C")).toMessage).device_keys) ∧
    (((((Client.new ("u")).with_device_key ("A")).with_device_key ("B")).send
        MessageBuilder.empty.toMessage).2.1).device_keys =
      ((((Client.new ("u")).with_device_key ("A")).with_device_key ("B"))).default_device_keys :=
  ⟨((claim3_default_key_fill
      ((((Client.new ("u")).with_device_key ("A")).with_device_key ("B")))
      (MessageBuilder.empty.set_device_key ("C")).toMessage).2.2.1 (by decide)).1,
   ((claim3_default_key_fill
      ((((Client.new ("u")).with_device_key ("A")).with_device_key ("B")))
      (MessageBuilder.empty.set_device_key ("C")).toMessage).2.2.1 (by decide)).2.2,
   (claim3_default_key_fill
      ((((Client.new ("u")).with_device_key ("A")).with_device_key ("B")))
      MessageBuilder.empty.toMessage).2.1 rfl⟩

/-- Claim C10: send returns the message with the default keys injected
exactly when its key set was empty, the injected keys persist in the
returned message, and every field other than the device-key set is
unchanged. -/
theorem claim10_send_mutation (c : Client) (m : Message) :
    (m.device_keys = ∅ → ((c.send m).2.1).device_keys = c.default_device_keys) ∧
    (m.device_keys = ∅ → ¬ c.default_device_keys = ∅ →
      ¬ ((c.send m).2.1).device_keys = ∅) ∧
    (¬ m.device_keys = ∅ → (c.send m).2.1 = m) ∧
    (((c.send m).2.1).title = m.title ∧
     ((c.send m).2.1).subtitle = m.subtitle ∧
     ((c.send m).2.1).body = m.body ∧
     ((c.send m).2.1).level = m.level ∧
     ((c.send m).2.1).volume = m.volume ∧
     ((c.send m).2.1).badge = m.badge ∧
     ((c.send m).2.1).call = m.call ∧
     ((c.send m).2.1).auto_copy = m.auto_copy ∧
     ((c.send m).2.1).copy = m.copy ∧
     ((c.send m).2.1).sound = m.sound ∧
     ((c.send m).2.1).icon = m.icon ∧
     ((c.send m).2.1).image = m.image ∧
     ((c.send m).2.1).group = m.group ∧
     ((c.send m).2.1).ciphertext = m.ciphertext ∧
     ((c.send m).2.1).is_archive = m.is_archive ∧
     ((c.send m).2.1).url = m.url ∧
     ((c.send m).2.1).action = m.action ∧
     ((c.send m).2.1).id = m.id ∧
     ((c.send m).2.1).delete = m.delete) := by
  by_cases h : m.device_keys = ∅
  · by_cases hd : c.default_device_keys = ∅
    · rw [send_of_all_empty c m h hd]
      exact ⟨fun _ => by rw [h, hd], fun _ hdne => absurd hd hdne,
        fun hne => absurd h hne,
        rfl, rfl, rfl, rfl, rfl, rfl, rfl, rfl, rfl, rfl, rfl, rfl, rfl, rfl,
        rfl, rfl, rfl, rfl, rfl⟩
    · rw [send_of_empty_defaults c m h hd]
      exact ⟨fun _ => rfl, fun _ _ => hd, fun hne => absurd h hne,
        rfl, rfl, rfl, rfl, rfl, rfl, rfl, rfl, rfl, rfl, rfl, rfl, rfl, rfl,
        rfl, rfl, rfl, rfl, rfl⟩
  · rw [send_of_nonempty c m h]
    exact ⟨fun he => absurd he h, fun he => absurd he h, fun _ => rfl,
      rfl, rfl, rfl, rfl, rfl, rfl, rfl, rfl, rfl, rfl, rfl, rfl, rfl, rfl,
      rfl, rfl, rfl, rfl, rfl⟩

theorem claim10_send_mutation_witness :
    ((((Client.new ("u")).with_device_key ("A")).send
        MessageBuilder.empty.toMessage).2.1).device_keys =
      ((Client.new ("u")).with_device_key ("A")).default_device_keys ∧
    ¬ ((((Client.new ("u")).with_device_key ("A")).send
        MessageBuilder.empty.toMessage).2.1).device_keys = ∅ ∧
    ((((Client.new ("u")).with_device_key ("A")).send
        MessageBuilder.empty.toMessage).2.1).title = none :=
  ⟨(claim10_send_mutation ((Client.new ("u")).with_device_key ("A"))
      MessageBuilder.empty.toMessage).1 rfl,
   (claim10_send_mutation ((Client.new ("u")).with_device_key ("A"))
      MessageBuilder.empty.toMessage).2.1 rfl (by decide),
   (claim10_send_mutation ((Client.new ("u")).with_device_key ("A"))
      MessageBuilder.empty.toMessage).2.2.2.1⟩

/-- Claim C4: each boolean flag set true yields a wire entry with
integer value 1, and a false flag leaves its key entirely absent from
the payload. -/
theorem claim4_flag_encoding (b : MessageBuilder) (m : Message)
    (h : b.build = Except.ok m) :
    ((b.call = true → (serializeMessage m).lookup ("call") = some (JsonVal.num 1)) ∧
     (b.call = false → ("call") ∉ (serializeMessage m).map Prod.fst)) ∧
    ((b.auto_copy = true →
        (serializeMessage m).lookup ("auto_copy") = some (JsonVal.num 1)) ∧
     (b.auto_copy = false → ("auto_copy") ∉ (serializeMessage m).map Prod.fst)) ∧
    ((b.is_archive = true →
        (serializeMessage m).lookup ("is_archive") = some (JsonVal.num 1)) ∧
     (b.is_archive = false → ("is_archive") ∉ (serializeMessage m).map Prod.fst)) ∧
    ((b.delete = true → (serializeMessage m).lookup ("delete") = some (JsonVal.num 1)) ∧
     (b.delete = false → ("delete") ∉ (serializeMessage m).map Prod.fst)) := by
  obtain rfl := build_ok_elim b m h
  refine ⟨⟨fun hc => ?_, fun hc => ?_⟩, ⟨fun hc => ?_, fun hc => ?_⟩,
    ⟨fun hc => ?_, fun hc => ?_⟩, ⟨fun hc => ?_, fun hc => ?_⟩⟩
  · rw [serializeMessage_lookup_call]
    simp [MessageBuilder.toMessage, Flag.ofBool, hc]
  · rw [← lookup_eq_none_iff, serializeMessage_lookup_call]
    simp [MessageBuilder.toMessage, Flag.ofBool, hc]
  · rw [serializeMessage_lookup_auto_copy]
    simp [MessageBuilder.toMessage, Flag.ofBool, hc]
  · rw [← lookup_eq_none_iff, serializeMessage_lookup_auto_copy]
    simp [MessageBuilder.toMessage, Flag.ofBool, hc]
  · rw [serializeMessage_lookup_is_archive]
    simp [MessageBuilder.toMessage, Flag.ofBool, hc]
  · rw [← lookup_eq_none_iff, serializeMessage_lookup_is_archive]
    simp [MessageBuilder.toMessage, Flag.ofBool, hc]
  · rw [serializeMessage_lookup_delete]
    simp [MessageBuilder.toMessage, Flag.ofBool, hc]
  · rw [← lookup_eq_none_iff, serializeMessage_lookup_delete]
    simp [MessageBuilder.toMessage, Flag.ofBool, hc]

theorem claim4_flag_encoding_witness :
    (serializeMessage (MessageBuilder.empty.set_call true).toMessage).lookup ("call") =
      some (JsonVal.num 1) ∧
    ("delete") ∉ (serializeMessage (MessageBuilder.empty.set_call true).toMessage).map
      Prod.fst :=
  ⟨((claim4_flag_encoding (MessageBuilder.empty.set_call true)
      (MessageBuilder.empty.set_call true).toMessage rfl).1).1 rfl,
   ((claim4_flag_encoding (MessageBuilder.empty.set_call true)
      (MessageBuilder.empty.set_call true).toMessage rfl).2.2.2).2 rfl⟩

/-- Claim C5: a built message with body text carries exactly one body
key, named by the selected kind (plaintext being the builder default),
never both keys and never a kind key; without body text neither key
appears. -/
theorem claim5_body_encoding (b : MessageBuilder) (m : Message)
    (h : b.build = Except.ok m) :
    (∀ t, b.body = some t →
      (b.body_kind = BodyKind.Plaintext →
        (serializeMessage m).lookup ("body") = some (JsonVal.str t) ∧
        ("markdown") ∉ (serializeMessage m).map Prod.fst) ∧
      (b.body_kind = BodyKind.Markdown →
        (serializeMessage m).lookup ("markdown") = some (JsonVal.str t) ∧
        ("body") ∉ (serializeMessage m).map Prod.fst)) ∧
    (b.body = none →
      ("body") ∉ (serializeMessage m).map Prod.fst ∧
      ("markdown") ∉ (serializeMessage m).map Prod.fst) ∧
    ("kind") ∉ (serializeMessage m).map Prod.fst ∧
    MessageBuilder.empty.body_kind = BodyKind.Plaintext := by
  obtain rfl := build_ok_elim b m h
  refine ⟨fun t ht => ⟨fun hk => ⟨?_, ?_⟩, fun hk => ⟨?_, ?_⟩⟩,
    fun ht => ⟨?_, ?_⟩, ?_, rfl⟩
  · rw [serializeMessage_lookup_body]
    simp [MessageBuilder.toMessage, ht, hk]
  · rw [← lookup_eq_none_iff, serializeMessage_lookup_markdown]
    simp [MessageBuilder.toMessage, ht, hk]
  · rw [serializeMessage_lookup_markdown]
    simp [MessageBuilder.toMessage, ht, hk]
  · rw [← lookup_eq_none_iff, serializeMessage_lookup_body]
    simp [MessageBuilder.toMessage, ht, hk]
  · rw [← lookup_eq_none_iff, serializeMessage_lookup_body]
    simp [MessageBuilder.toMessage, ht]
  · rw [← lookup_eq_none_iff, serializeMessage_lookup_markdown]
    simp [MessageBuilder.toMessage, ht]
  · rw [← lookup_eq_none_iff]
    exact serializeMessage_lookup_kind _

theorem claim5_body_encoding_witness :
    (serializeMessage (MessageBuilder.empty.set_body ("hello")).toMessage).lookup
        ("body") = some (JsonVal.str ("hello")) ∧
    ("markdown") ∉
      (serializeMessage (MessageBuilder.empty.set_body ("hello")).toMessage).map Prod.fst ∧
    (serializeMessage
        ((MessageBuilder.empty.set_body ("# hi")).set_body_kind BodyKind.Markdown).toMessage).lookup
        ("markdown") = some (JsonVal.str ("# hi")) ∧
    ("body") ∉
      (serializeMessage
        ((MessageBuilder.empty.set_body ("# hi")).set_body_kind BodyKind.Markdown).toMessage).map
        Prod.fst :=
  ⟨(((claim5_body_encoding (MessageBuilder.empty.set_body ("hello"))
      (MessageBuilder.empty.set_body ("hello")).toMessage rfl).1 ("hello") rfl).1 rfl).1,
   (((claim5_body_encoding (MessageBuilder.empty.set_body ("hello"))
      (MessageBuilder.empty.set_body ("hello")).toMessage rfl).1 ("hello") rfl).1 rfl).2,
   (((claim5_body_encoding ((MessageBuilder.empty.set_body ("# hi")).set_body_kind BodyKind.Markdown)
      ((MessageBuilder.empty.set_body ("# hi")).set_body_kind BodyKind.Markdown).toMessage rfl).1
      ("# hi") rfl).2 rfl).1,
   (((claim5_body_encoding ((MessageBuilder.empty.set_body ("# hi")).set_body_kind BodyKind.Markdown)
      ((MessageBuilder.empty.set_body ("# hi")).set_body_kind BodyKind.Markdown).toMessage rfl).1
      ("# hi") rfl).2 rfl).2⟩

/-- Claim C7: a set level serializes as the lower-camel-case name of
the enumeration member under the level key, and an unset level leaves
the key absent. -/
theorem claim7_level_encoding (b : MessageBuilder) (m : Message)
    (h : b.build = Except.ok m) :
    (∀ l, b.level = some l →
      (serializeMessage m).lookup ("level") =
        some (JsonVal.str (Level.serialize l))) ∧
    (b.level = none → ("level") ∉ (serializeMessage m).map Prod.fst) ∧
    Level.serialize Level.Critical = "critical" ∧
    Level.serialize Level.Active = "active" ∧
    Level.serialize Level.TimeSensitive = "timeSensitive" ∧
    Level.serialize Level.Passive = "passive" := by
  obtain rfl := build_ok_elim b m h
  refine ⟨fun l hl => ?_, fun hl => ?_, rfl, rfl, rfl, rfl⟩
  · rw [serializeMessage_lookup_level]
    simp [MessageBuilder.toMessage, hl]
  · rw [← lookup_eq_none_iff, serializeMessage_lookup_level]
    simp [MessageBuilder.toMessage, hl]

theorem claim7_level_encoding_witness :
    (serializeMessage
        (MessageBuilder.empty.set_level Level.TimeSensitive).toMessage).lookup ("level") =
      some (JsonVal.str ("timeSensitive")) ∧
    ("level") ∉ (serializeMessage MessageBuilder.empty.toMessage).map Prod.fst :=
  ⟨(claim7_level_encoding (MessageBuilder.empty.set_level Level.TimeSensitive)
      (MessageBuilder.empty.set_level Level.TimeSensitive).toMessage rfl).1
      Level.TimeSensitive rfl,
   (claim7_level_encoding MessageBuilder.empty MessageBuilder.empty.toMessage rfl).2.1 rfl⟩

/-! Helper lemmas for the base URL normalization. -/

theorem Client.new_base_url (s : String) :
    (Client.new s).base_url =
      if s.data.getLast? = some ('/' : Char) then String.mk s.data.dropLast else s := rfl

theorem Client.new_defaults (s : String) :
    (Client.new s).default_device_keys = ∅ := rfl

/-- Claim C8: construction strips exactly one trailing slash from the
base URL (an input ending in two slashes keeps one), leaves a
slash-free input unchanged, and every transport request posts to the
stored base followed by the push path. -/
theorem claim8_base_url :
    (∀ t : String, (Client.new (t ++ "/")).base_url = t) ∧
    (∀ s : String, ¬ s.data.getLast? = some ('/' : Char) → (Client.new s).base_url = s) ∧
    (∀ t : String, (Client.new (t ++ "//")).base_url = t ++ "/") ∧
    (∀ (c : Client) (m : Message), ¬ m.device_keys = ∅ →
      (c.send m).2.2 =
        Except.ok { url := c.base_url ++ "/push", payload := serializeMessage m }) ∧
    (∀ (c : Client) (m : Message) (r : SendRequest),
      (c.send m).2.2 = Except.ok r → r.url = c.base_url ++ "/push") := by
  refine ⟨fun t => ?_, fun s hs => ?_, fun t => ?_, fun c m h => ?_, fun c m r hr => ?_⟩
  · have hd : (t ++ ("/" : String)).data = t.data ++ [('/' : Char)] := rfl
    rw [Client.new_base_url, hd, List.getLast?_concat, if_pos rfl, List.dropLast_concat]
  · rw [Client.new_base_url, if_neg hs]
  · have hd : (t ++ ("//" : String)).data = (t.data ++ [('/' : Char)]) ++ [('/' : Char)] :=
      (List.append_assoc t.data [('/' : Char)] [('/' : Char)]).symm
    rw [Client.new_base_url, hd, List.getLast?_concat, if_pos rfl, List.dropLast_concat]
    rfl
  · rw [send_of_nonempty c m h]
  · by_cases h : m.device_keys = ∅
    · by_cases hd : c.default_device_keys = ∅
      · rw [send_of_all_empty c m h hd] at hr
        exact absurd hr (by simp)
      · rw [send_of_empty_defaults c m h hd] at hr
        obtain rfl := Except.ok.inj hr.symm
        rfl
    · rw [send_of_nonempty c m h] at hr
      obtain rfl := Except.ok.inj hr.symm
      rfl

theorem claim8_base_url_witness :
    (Client.new ("https://api.day.app" ++ "/")).base_url = "https://api.day.app" ∧
    (Client.new ("u")).base_url = "u" ∧
    (Client.new ("u" ++ "//")).base_url = "u" ++ "/" ∧
    ((Client.new ("u")).send (MessageBuilder.empty.set_device_key ("C")).toMessage).2.2 =
      Except.ok
        { url := (Client.new ("u")).base_url ++ "/push",
          payload :=
            serializeMessage (MessageBuilder.empty.set_device_key ("C")).toMessage } ∧
    SendRequest.url
        { url := (Client.new ("u")).base_url ++ "/push",
          payload :=
            serializeMessage (MessageBuilder.empty.set_device_key ("C")).toMessage } =
      (Client.new ("u")).base_url ++ "/push" :=
  ⟨claim8_base_url.1 ("https://api.day.app"),
   claim8_base_url.2.1 ("u") (by decide),
   claim8_base_url.2.2.1 ("u"),
   claim8_base_url.2.2.2.1 (Client.new ("u"))
     (MessageBuilder.empty.set_device_key ("C")).toMessage (by decide),
   claim8_base_url.2.2.2.2 (Client.new ("u"))
     (MessageBuilder.empty.set_device_key ("C")).toMessage _
     (claim8_base_url.2.2.2.1 (Client.new ("u"))
       (MessageBuilder.empty.set_device_key ("C")).toMessage (by decide))⟩

/-! Helper lemma for the device-key set union. -/

theorem foldl_insert_eq_union (s : Finset String) (l : List String) :
    List.foldl (fun s k => insert k s) s l = s ∪ l.toFinset := by
  induction l generalizing s with
  | nil => simp
  | cons hd tl ih =>
    rw [List.foldl_cons, ih, List.toFinset_cons, Finset.insert_union, Finset.union_insert]

/-- Claim C9: the device-key set deduplicates: adding a key twice
equals adding it once, two insertions of one key into the empty builder
give a set of size one, and the iterable setter unions the given keys
into the existing set, which is unchanged when the key is already
present. -/
theorem claim9_device_key_dedup :
    (∀ (b : MessageBuilder) (k : String),
      (b.set_device_key k).set_device_key k = b.set_device_key k) ∧
    (∀ k : String,
      ((MessageBuilder.empty.set_device_key k).set_device_key k).device_keys.card = 1) ∧
    (∀ (b : MessageBuilder) (ks : List String),
      (b.set_device_keys ks).device_keys = b.device_keys ∪ ks.toFinset) ∧
    (∀ (b : MessageBuilder) (k : String), k ∈ b.device_keys →
      (b.set_device_keys [k]).device_keys = b.device_keys) := by
  refine ⟨fun b k => ?_, fun k => ?_, fun b ks => ?_, fun b k hk => ?_⟩
  · simp [MessageBuilder.set_device_key, Finset.insert_idem]
  · simp [MessageBuilder.set_device_key, MessageBuilder.empty, Finset.insert_idem]
  · simp [MessageBuilder.set_device_keys, foldl_insert_eq_union]
  · simp [MessageBuilder.set_device_keys, Finset.insert_eq_self.mpr hk]

theorem claim9_device_key_dedup_witness :
    ((MessageBuilder.empty.set_device_key ("A")).set_device_keys [("A")]).device_keys =
      (MessageBuilder.empty.set_device_key ("A")).device_keys :=
  claim9_device_key_dedup.2.2.2 (MessageBuilder.empty.set_device_key ("A")) ("A")
    (by decide)

end Bark
